import Mathlib

/-!
# Verification of the TPC-C benchmark-chart generation pipeline

Shallow embedding of `scripts/generate-benchmark-charts.py`: the constant
benchmark data (`RESULTS`, `COMPARISON`), the derived-metric computation
(microsecond-to-millisecond conversion), the per-figure renderers (modelled
as pure functions from the data to a description of the drawn chart: bar
values, bar colors, value labels, annotations, reference lines), and the
orchestrator `main` (modelled with explicit exception propagation, since the
Python code has no try/except).

Real numbers in the script are modelled as exact rationals (`Rat`); the
NumPy pseudo-random generator and `np.sin` are modelled as arbitrary
deterministic functions threaded through an explicit state, which is what
they are (MT19937 is a deterministic state machine seeded by
`np.random.seed`).
-/

/-- `RESULTS['transactions']` : total / successful / failed counts. -/
structure Transactions where
  total : Nat
  successful : Nat
  failed : Nat
deriving DecidableEq

/-- `RESULTS['latency']` : summary statistics in microseconds. -/
structure Latency where
  mean : Nat
  std : Nat
  min : Nat
  max : Nat
  p50 : Nat
  p75 : Nat
  p90 : Nat
  p95 : Nat
  p99 : Nat
  p999 : Nat
deriving DecidableEq

/-- One entry of `RESULTS['tx_mix']` : count, percentage of total,
success percentage. -/
structure TxCategory where
  count : Nat
  pct : Rat
  success : Rat
deriving DecidableEq

/-- The `RESULTS` record of the script (its top-level constant dictionary). -/
structure BenchmarkResult where
  tpmC : Nat
  tps : Rat
  success_rate : Rat
  transactions : Transactions
  latency : Latency
  tx_mix : List (String × TxCategory)
  mvcc_conflict_rate : Rat
  trust_premium : Rat
  baseline_latency_ms : Nat
deriving DecidableEq

/-- The literal `RESULTS` constant from the script. -/
def RESULTS : BenchmarkResult :=
  { tpmC := 2076
    tps := 77.2
    success_rate := 99.89
    transactions := { total := 4637, successful := 4632, failed := 5 }
    latency :=
      { mean := 116969, std := 37117, min := 33083, max := 273706
        p50 := 113287, p75 := 138999, p90 := 167425, p95 := 180869
        p99 := 226657, p999 := 269370 }
    tx_mix :=
      [ ("NEW_ORDER", { count := 2078, pct := 44.8, success := 99.9 })
      , ("PAYMENT", { count := 2009, pct := 43.3, success := 99.9 })
      , ("ORDER_STATUS", { count := 191, pct := 4.1, success := 100.0 })
      , ("DELIVERY", { count := 175, pct := 3.8, success := 100.0 })
      , ("STOCK_LEVEL", { count := 184, pct := 4.0, success := 100.0 }) ]
    mvcc_conflict_rate := 1.81
    trust_premium := 58.48
    baseline_latency_ms := 2 }

/-- One entry of the `COMPARISON` constant: platform name, latency (ms),
throughput (TPS), trust premium relative to the baseline. -/
structure PlatformEntry where
  name : String
  latency : Rat
  tps : Rat
  trust_premium : Rat
deriving DecidableEq

/-- The literal `COMPARISON` constant from the script (insertion order of the
Python dict, which `list(COMPARISON.keys())` preserves). -/
def COMPARISON : List PlatformEntry :=
  [ { name := "GridTokenX", latency := 117, tps := 77, trust_premium := 58.5 }
  , { name := "Hyperledger\nFabric", latency := 350, tps := 200, trust_premium := 175 }
  , { name := "Ethereum\n(PoS)", latency := 12000, tps := 30, trust_premium := 6000 }
  , { name := "PostgreSQL", latency := 2, tps := 5000, trust_premium := 1 } ]

/-- The latency percentile fields in the fixed ascending label order used by
`fig1_latency_distribution` (min, p50, p75, p90, p95, p99, p99.9, max),
still in microseconds. -/
def latencyFieldsUs (r : BenchmarkResult) : List Nat :=
  [ r.latency.min, r.latency.p50, r.latency.p75, r.latency.p90
  , r.latency.p95, r.latency.p99, r.latency.p999, r.latency.max ]

/-- Checks that consecutive latency percentile values are non-decreasing
across the label order min, p50, p75, p90, p95, p99, p99.9, max. -/
def latencyNonDecreasing (l : Latency) : Bool :=
  decide (l.min ≤ l.p50) && decide (l.p50 ≤ l.p75) && decide (l.p75 ≤ l.p90)
    && decide (l.p90 ≤ l.p95) && decide (l.p95 ≤ l.p99)
    && decide (l.p99 ≤ l.p999) && decide (l.p999 ≤ l.max)

/-- C6: `RESULTS` is the only `BenchmarkResult` instance the program
constructs; its latency percentile values are non-decreasing across the
labels min, p50, p75, p90, p95, p99, p99.9, max
(33083 ≤ 113287 ≤ 138999 ≤ 167425 ≤ 180869 ≤ 226657 ≤ 269370 ≤ 273706). -/
theorem c6_percentiles_nondecreasing :
    latencyNonDecreasing RESULTS.latency = true := by decide

/-- C7: for `RESULTS`, the only `BenchmarkResult` instance the program
constructs, successful (4632) plus failed (5) transaction counts equal the
total (4637). -/
theorem c7_transaction_counts_add_up :
    RESULTS.transactions.successful + RESULTS.transactions.failed
      = RESULTS.transactions.total := by decide

/-! ## Figure 1: latency percentile distribution (`fig1_latency_distribution`) -/

/-- Microsecond-to-millisecond conversion of the Derived-Metric Computer:
exact division by 1000, with no rounding (rounding happens only when a
label is formatted). Models the Python float division `us / 1000` in exact
rational arithmetic. -/
def msOfUs (us : Nat) : Rat := (us : Rat) / 1000

/-- The `values` list computed at the top of `fig1_latency_distribution`:
each percentile field divided by 1000. -/
def latencyValuesMs (r : BenchmarkResult) : List Rat :=
  [ (r.latency.min : Rat) / 1000
  , (r.latency.p50 : Rat) / 1000
  , (r.latency.p75 : Rat) / 1000
  , (r.latency.p90 : Rat) / 1000
  , (r.latency.p95 : Rat) / 1000
  , (r.latency.p99 : Rat) / 1000
  , (r.latency.p999 : Rat) / 1000
  , (r.latency.max : Rat) / 1000 ]

/-- The hardcoded per-bar color list of `fig1_latency_distribution`
(`colors = ['#10B981', '#3B82F6', '#3B82F6', '#F59E0B', '#F59E0B',
'#EF4444', '#EF4444', '#DC2626']`). -/
def fig1BarColors : List String :=
  [ "#10B981", "#3B82F6", "#3B82F6", "#F59E0B"
  , "#F59E0B", "#EF4444", "#EF4444", "#DC2626" ]

/-- Round-half-to-even on rationals, matching Python float formatting with
`:.0f` (banker's rounding; for the values in this program no tie occurs). -/
def roundHalfEven (q : Rat) : Int :=
  let f := ⌊q⌋
  let frac := q - f
  if frac < 1 / 2 then f
  else if 1 / 2 < frac then f + 1
  else if f % 2 = 0 then f else f + 1

/-- The bar value label `f'{val:.0f}ms'` of `fig1_latency_distribution`. -/
def fmtMs (v : Rat) : String := toString (roundHalfEven v) ++ "ms"

/-- One rendered bar: its height (ms), fill color, and text label. -/
structure Bar where
  value : Rat
  color : String
  label : String
deriving DecidableEq

/-- One legend entry of figure 1: swatch color and text. -/
def fig1Legend : List (String × String) :=
  [ ("#10B981", "Excellent (<50ms)")
  , ("#3B82F6", "Good (50-150ms)")
  , ("#F59E0B", "Warning (150-200ms)")
  , ("#EF4444", "Critical (>200ms)") ]

/-- The value-keyed severity band color, formalised from the legend of
figure 1 and the spec wording (<50ms excellent, 50-150ms good, 150-200ms
warning, >200ms critical). This is the SPEC-side coloring rule, to be
compared with the positional colors the code actually draws. -/
def severityBandColor (v : Rat) : String :=
  if v < 50 then "#10B981"
  else if v ≤ 150 then "#3B82F6"
  else if v ≤ 200 then "#F59E0B"
  else "#EF4444"

/-- The chart drawn by `fig1_latency_distribution`: eight bars (value,
positional color, `:.0f`-rounded label), a dashed mean reference line at
`mean / 1000`, its annotation text, and the severity legend. -/
structure Fig1Chart where
  bars : List Bar
  meanLine : Rat
  meanLabel : String
  legend : List (String × String)
deriving DecidableEq

/-- Shallow embedding of `fig1_latency_distribution` (drawing cosmetics --
figure size, fonts, axis limits -- elided; bar heights, colors, labels,
mean line and legend kept). The colors are paired with the bars
positionally by `zip`, exactly as the code does. -/
def fig1_latency_distribution (r : BenchmarkResult) : Fig1Chart :=
  { bars := ((latencyValuesMs r).zip fig1BarColors).map fun p =>
      { value := p.1, color := p.2, label := fmtMs p.1 }
    meanLine := (r.latency.mean : Rat) / 1000
    meanLabel := "Mean: " ++ toString (roundHalfEven ((r.latency.mean : Rat) / 1000)) ++ "ms"
    legend := fig1Legend }

/-- A default bar used only as the `getD` fallback in statements. -/
def noBar : Bar := { value := 0, color := "", label := "" }

/-- C1: for the literal `RESULTS` (p99 = 226657 microseconds), the p99 bar
of the latency-distribution figure (index 5) is exactly the bar with value
226657/1000 ms, color "#EF4444" (the color the legend assigns to the
critical band) and label "227ms" (226657/1000 rounded to nearest); its
value exceeds 200ms and the value-keyed severity band of that value is
indeed critical. -/
theorem c1_p99_bar_critical_labeled_227ms :
    (fig1_latency_distribution RESULTS).bars.getD 5 noBar
      = { value := 226657 / 1000, color := "#EF4444", label := "227ms" } ∧
    (200 : Rat) < 226657 / 1000 ∧
    severityBandColor (226657 / 1000) = "#EF4444" := by
  have hv : ((226657 : Nat) : Rat) / 1000 = 226657 / 1000 := by norm_num
  have hround : roundHalfEven (226657 / 1000) = 227 := by
    unfold roundHalfEven
    have hf : ⌊(226657 : Rat) / 1000⌋ = 226 := by norm_num [Int.floor_eq_iff]
    rw [hf]
    norm_num
  have hbar : (fig1_latency_distribution RESULTS).bars.getD 5 noBar
      = { value := ((226657 : Nat) : Rat) / 1000, color := "#EF4444",
          label := fmtMs (((226657 : Nat) : Rat) / 1000) } := rfl
  refine ⟨?_, by norm_num, ?_⟩
  · rw [hbar, hv]
    unfold fmtMs
    rw [hround]
    rfl
  · unfold severityBandColor
    norm_num

/-- C5: the Derived-Metric Computer's millisecond conversion is exactly
division by 1000 with no rounding: for every `BenchmarkResult` the `values`
list is the pointwise image of the microsecond fields under `msOfUs`,
`msOfUs` loses no information (multiplying back by 1000 recovers the input
exactly, so no rounding happened), and the computation is a pure function
of the record: a second application to the same record yields an identical
output. -/
theorem c5_ms_conversion_exact_and_pure :
    (∀ r : BenchmarkResult, latencyValuesMs r = (latencyFieldsUs r).map msOfUs) ∧
    (∀ us : Nat, msOfUs us * 1000 = (us : Rat)) ∧
    (∀ r : BenchmarkResult, latencyValuesMs r = latencyValuesMs r) := by
  refine ⟨fun r => rfl, fun us => ?_, fun r => rfl⟩
  unfold msOfUs
  exact div_mul_cancel₀ _ (by norm_num)

/-- C10: the bar colors of figure 1 are the fixed positional sequence
green, blue, blue, amber, amber, red, red, dark red for every possible
assignment of latency values -- the color depends only on the bar's
position, never on its value. Moreover the value-keyed severity coloring
does not always coincide with the rendered colors: already on `RESULTS`,
the Max bar (273.706ms) falls in the critical band colored "#EF4444" by
the legend rule, yet is drawn in "#DC2626". -/
theorem c10_bar_colors_positional :
    (∀ r : BenchmarkResult,
      (fig1_latency_distribution r).bars.map Bar.color = fig1BarColors) ∧
    severityBandColor ((fig1_latency_distribution RESULTS).bars.getD 7 noBar).value
      ≠ ((fig1_latency_distribution RESULTS).bars.getD 7 noBar).color := by
  have hsev : severityBandColor (((273706 : Nat) : Rat) / 1000) = "#EF4444" := by
    unfold severityBandColor
    norm_num
  refine ⟨fun r => rfl, ?_⟩
  show severityBandColor (((273706 : Nat) : Rat) / 1000) ≠ "#DC2626"
  rw [hsev]
  decide

/-! ## Figure 3: platform comparison (`fig3_platform_comparison`) -/

/-- The chart drawn by `fig3_platform_comparison`: the trust-premium bars
(log-scale axis), the TPS bars, the thicker outline applied to the first
bar (`bars1[0].set_linewidth(3)`), and the index at which the code places
the `'[Best]'` annotation. The code calls
`ax1.annotate('[Best]', xy=(0, trust_premiums[0]), ...)` unconditionally,
so the annotation index is always `some 0`. -/
structure ComparisonChart where
  trustBars : List Rat
  tpsBars : List Rat
  firstBarEdgeWidth : Rat
  bestAnnotationIndex : Option Nat
deriving DecidableEq

/-- Shallow embedding of `fig3_platform_comparison` as a function of the
comparison data it reads (the module-level `COMPARISON` constant in the
script; the function body is generic in that data). Cosmetics elided. -/
def fig3_platform_comparison (comparison : List PlatformEntry) : ComparisonChart :=
  { trustBars := comparison.map fun e => e.trust_premium
    tpsBars := comparison.map fun e => e.tps
    firstBarEdgeWidth := 3
    bestAnnotationIndex := some 0 }

/-- Spec-side condition of C3: the first entry has the strictly lowest
trust premium among the non-baseline entries (the baseline is the entry
whose trust premium equals 1). -/
def firstIsLowestNonBaseline (comparison : List PlatformEntry) : Bool :=
  match comparison with
  | [] => false
  | e :: rest =>
    (rest.filter fun p => decide (p.trust_premium ≠ 1)).all
      fun p => decide (e.trust_premium < p.trust_premium)

/-- A comparison list on which C3 as stated fails: the first entry has the
HIGHEST trust premium, yet the renderer still annotates it as preferred. -/
def badComparison : List PlatformEntry :=
  [ { name := "A", latency := 1, tps := 1, trust_premium := 1000 }
  , { name := "B", latency := 1, tps := 1, trust_premium := 5 } ]

/-- C3 counterexample: the claim says the first entry is annotated as the
preferred option EXACTLY WHEN it has the lowest trust premium among the
non-baseline entries. On `badComparison` (first trust premium 1000,
second 5) the renderer still places the `'[Best]'` annotation on the first
entry even though it is not lowest — the annotation is unconditional in
the code, so the biconditional fails. -/
theorem c3_best_annotated_without_lowest_premium :
    (fig3_platform_comparison badComparison).bestAnnotationIndex = some 0 ∧
    firstIsLowestNonBaseline badComparison = false := by
  constructor
  · rfl
  · show (List.all _ _) = false
    have h5 : ¬ ((1000 : Rat) < 5) := by norm_num
    simp [badComparison, firstIsLowestNonBaseline, h5]

/-- C3 amended: the renderer annotates the first entry as the preferred
option unconditionally, for every comparison list; on the reference
`COMPARISON` data this coincides with the spec condition, since the first
entry's trust premium 58.5 is strictly lowest among the non-baseline
entries (58.5 < 175 and 58.5 < 6000, the baseline entry of 1 excluded). -/
theorem c3_always_annotates_first_and_reference_lowest :
    (∀ comparison : List PlatformEntry,
      (fig3_platform_comparison comparison).bestAnnotationIndex = some 0) ∧
    firstIsLowestNonBaseline COMPARISON = true := by
  refine ⟨fun comparison => rfl, ?_⟩
  show (List.all _ _) = true
  have h175 : (58.5 : Rat) < 175 := by norm_num
  have h6000 : (58.5 : Rat) < 6000 := by norm_num
  have hb : ¬ ((1 : Rat) ≠ 1) := by norm_num
  simp [COMPARISON, firstIsLowestNonBaseline, h175, h6000, hb]

/-! ## The orchestrator `main` (C2, C9) -/

/-- The five figure base names, in the fixed order `main` invokes the
renderers (`fig1_latency_distribution` .. `fig5_throughput_timeline`). -/
def figureNames : List String :=
  [ "latency_distribution", "transaction_mix", "platform_comparison"
  , "benchmark_summary", "throughput_timeline" ]

/-- One renderer execution at the output-writing level: each figure
function ends with two `plt.savefig` calls (`<name>.pdf`, `<name>.png`).
When the output directory is writable both files are written; when it is
unwritable `savefig` raises (modelled as `none`), which no figure function
catches. -/
def renderFigure (writable : Bool) (name : String) : Option (List String) :=
  if writable then some [name ++ ".pdf", name ++ ".png"] else none

/-- Sequential renderer execution with Python exception propagation:
`main` calls the figure functions one after another with no try/except,
so the first raised exception aborts the run. Returns the figure names
attempted, the files written, and whether the run crashed. -/
def runRenderers (writable : Bool) : List String → List String × List String × Bool
  | [] => ([], [], false)
  | n :: rest =>
    match renderFigure writable n with
    | none => ([n], [], true)
    | some files =>
      let out := runRenderers writable rest
      (n :: out.1, files ++ out.2.1, out.2.2)

/-- Lexicographic comparison of character lists by code point, the order
Python's `sorted` uses on `str`. -/
def charListLe : List Char → List Char → Bool
  | [], _ => true
  | _ :: _, [] => false
  | a :: as, b :: bs =>
    if a.toNat < b.toNat then true
    else if b.toNat < a.toNat then false
    else charListLe as bs

/-- `a <= b` on strings by code point. -/
def strLe (a b : String) : Bool := charListLe a.data b.data

/-- Whether one character list is a prefix of another. -/
def charPrefix : List Char → List Char → Bool
  | [], _ => true
  | _ :: _, [] => false
  | a :: as, b :: bs => if a.toNat = b.toNat then charPrefix as bs else false

/-- Whether `s` ends with `suffix` (the `'*.pdf'` glob test). -/
def strEndsWith (s suffix : String) : Bool :=
  charPrefix suffix.data.reverse s.data.reverse

/-- Insertion of a string into a sorted list (for `sorted(...)`). -/
def insertSorted (x : String) : List String → List String
  | [] => [x]
  | y :: ys => if strLe x y then x :: y :: ys else y :: insertSorted x ys

/-- `sorted(...)` over strings. -/
def sortStrings (l : List String) : List String := l.foldr insertSorted []

/-- The observable outcome of one run of `main`. The end-of-run manifest
is produced by `for f in sorted(OUTPUT_DIR.glob('*.pdf'))`, i.e. only over
the `.pdf` files present in the output directory (which, starting from an
empty directory, are exactly the `.pdf` files the run wrote); it is only
reached when no renderer raised. -/
structure RunOutcome where
  attempted : List String
  written : List String
  crashed : Bool
  summaryPrinted : Bool
  manifest : List String
deriving DecidableEq

/-- Shallow embedding of `main`: run the five renderers in order with
exception propagation, then (only if nothing raised) print the summary and
the manifest of `*.pdf` files. -/
def mainRun (writable : Bool) : RunOutcome :=
  let out := runRenderers writable figureNames
  { attempted := out.1
    written := out.2.1
    crashed := out.2.2
    summaryPrinted := !out.2.2
    manifest :=
      if out.2.2 then []
      else sortStrings (out.2.1.filter fun f => strEndsWith f ".pdf") }

/-- C2 counterexample: with an unwritable output path the run crashes
during the first figure. Only `latency_distribution` is attempted — the
four subsequent renderers are never reached — and no end-of-run summary is
produced, contradicting the claim that every figure yields a reported
failure, the process does not crash mid-run, and all failures are surfaced
at the end. -/
theorem c2_unwritable_path_crashes_midrun :
    (mainRun false).crashed = true ∧
    (mainRun false).attempted ≠ figureNames ∧
    (mainRun false).summaryPrinted = false := by
  refine ⟨rfl, ?_, rfl⟩
  decide

/-- C2 amended: `main` has no exception handling, so a failure in one
renderer propagates and aborts the whole run. With an unwritable output
path, exactly the first figure is attempted, no file is written, the
process crashes, no summary is printed and the manifest is empty. -/
theorem c2_failure_aborts_run :
    mainRun false
      = { attempted := ["latency_distribution"], written := [],
          crashed := true, summaryPrinted := false, manifest := [] } := by
  decide

/-- C9 counterexample: on a fully successful run the PNG artifacts are
produced but absent from the final manifest, which globs `'*.pdf'` only —
so the manifest does not list "all produced files ... each as .pdf and
.png". -/
theorem c9_png_missing_from_manifest :
    "latency_distribution.png" ∈ (mainRun true).written ∧
    "latency_distribution.png" ∉ (mainRun true).manifest := by
  decide

/-- C9 amended: at the end of a fully successful run the five artifacts
are each written in both formats (ten files), but the final manifest lists
only the five `.pdf` files, sorted by name; the `.png` files are not
enumerated. -/
theorem c9_manifest_lists_only_pdfs :
    (mainRun true).written
      = [ "latency_distribution.pdf", "latency_distribution.png"
        , "transaction_mix.pdf", "transaction_mix.png"
        , "platform_comparison.pdf", "platform_comparison.png"
        , "benchmark_summary.pdf", "benchmark_summary.png"
        , "throughput_timeline.pdf", "throughput_timeline.png" ] ∧
    (mainRun true).manifest
      = [ "benchmark_summary.pdf", "latency_distribution.pdf"
        , "platform_comparison.pdf", "throughput_timeline.pdf"
        , "transaction_mix.pdf" ] := by
  decide

/-! ## Figure 5: throughput timeline (`fig5_throughput_timeline`)

The NumPy global random generator is a deterministic state machine:
`np.random.seed(42)` replaces the global state by a state computed from the
seed alone, and each `normal` draw is a deterministic function of the
state. We model it by an abstract `RandomSource` (a seeding function and a
single-draw function over a `Nat` state) so every theorem below holds for
the real MT19937-plus-Gaussian implementation in particular. `np.sin` is
likewise an arbitrary fixed function `sinFn`. -/

/-- Abstract deterministic pseudo-random source: `seedFn` models
`np.random.seed` (seed value to fresh state), `drawFn` one sample of
`np.random.normal(0, 8)` (state to sample and next state). -/
structure RandomSource where
  seedFn : Nat → Nat
  drawFn : Nat → Rat × Nat

/-- The generator state after `n` draws from state `s`. -/
def stateAfter (rs : RandomSource) : Nat → Nat → Nat
  | 0, s => s
  | n + 1, s => stateAfter rs n (rs.drawFn s).2

/-- The `i`-th entry of `noise = np.random.normal(0, 8, len(time_points))`
drawn starting from state `s`. -/
def noiseAt (rs : RandomSource) (s : Nat) (i : Nat) : Rat :=
  (rs.drawFn (stateAfter rs i s)).1

/-- `np.clip(x, lo, hi)`. -/
def clip (x lo hi : Rat) : Rat := max lo (min hi x)

/-- `base_tps = 77.2`. -/
def base_tps : Rat := 77.2

/-- The `i`-th of the 120 points of `np.linspace(0, 60, 120)`. -/
def timeAt (i : Nat) : Rat := 60 * i / 119

/-- `time_points = np.linspace(0, 60, 120)`. -/
def timePoints : List Rat := (List.range 120).map timeAt

/-- The `i`-th point of the timeline: time `time_points[i]` paired with
`tps_values[i] = np.clip(base_tps + noise + np.sin(time_points/10)*5,
50, 100)[i]`, with the noise drawn from state `s`. -/
def timelinePoint (rs : RandomSource) (sinFn : Rat → Rat) (s : Nat) (i : Nat) :
    Rat × Rat :=
  (timeAt i, clip (base_tps + noiseAt rs s i + sinFn (timeAt i / 10) * 5) 50 100)

/-- All 120 timeline points (`time_points` paired with `tps_values`). -/
def timelinePoints (rs : RandomSource) (sinFn : Rat → Rat) (s : Nat) :
    List (Rat × Rat) :=
  (List.range 120).map (timelinePoint rs sinFn s)

/-- The chart drawn by `fig5_throughput_timeline`: warmup boundary
(`warmup_end = 6`), the two shaded regions (points with `t <= warmup_end`
in slate, points with `t > warmup_end` in the primary blue), the dashed
reference line `ax.axhline(y=base_tps)` and its legend label. -/
structure TimelineChart where
  warmupBoundary : Rat
  preWarmup : List (Rat × Rat)
  preColor : String
  postWarmup : List (Rat × Rat)
  postColor : String
  meanLine : Rat
  meanLabel : String

/-- Shallow embedding of `fig5_throughput_timeline`. It seeds the global
generator with the literal 42 (discarding whatever global state `g` the
process had), generates the series, splits it at the warmup boundary for
the two `fill_between` regions, and draws the reference line at the
constant `base_tps`. Returns the chart and the final global generator
state. -/
def fig5_throughput_timeline (rs : RandomSource) (sinFn : Rat → Rat) (_g : Nat) :
    TimelineChart × Nat :=
  let s := rs.seedFn 42
  let pts := timelinePoints rs sinFn s
  ( { warmupBoundary := 6
      preWarmup := pts.filter fun p => decide (p.1 ≤ 6)
      preColor := "#64748B"
      postWarmup := pts.filter fun p => decide (6 < p.1)
      postColor := "#3B82F6"
      meanLine := base_tps
      meanLabel := "Mean: 77.2 TPS" }
  , stateAfter rs 120 s )

/-- Sum of a list of rationals. -/
def ratSum (xs : List Rat) : Rat := xs.foldr (fun a b => a + b) 0

/-- Arithmetic mean of a list of rationals. -/
def ratMean (xs : List Rat) : Rat := ratSum xs / (xs.length : Rat)

/-- C4: the throughput-timeline generator is reproducible: for every
pseudo-random implementation `rs`, every sine implementation `sinFn` and
any two process-global generator states `g₁`, `g₂` (two different runs),
the generated charts -- in particular the synthetic series they contain --
are identical, because `np.random.seed(42)` replaces the global state by
one computed from the fixed seed alone. -/
theorem c4_same_seed_same_series :
    ∀ (rs : RandomSource) (sinFn : Rat → Rat) (g₁ g₂ : Nat),
      (fig5_throughput_timeline rs sinFn g₁).1
        = (fig5_throughput_timeline rs sinFn g₂).1 := by
  intro rs sinFn g₁ g₂
  rfl

/-- Sum of the elements of a list in which every element equals `c`. -/
theorem ratSum_all_eq (c : Rat) :
    ∀ xs : List Rat, (∀ x ∈ xs, x = c) → ratSum xs = c * (xs.length : Rat)
  | [], _ => by simp [ratSum]
  | a :: as, h => by
    have hs := ratSum_all_eq c as fun x hx => h x (List.mem_cons_of_mem a hx)
    have ha := h a (List.mem_cons_self a as)
    show a + ratSum as = c * (((a :: as).length : Nat) : Rat)
    rw [ha, hs]
    push_cast [List.length_cons]
    ring

/-- Mean of a nonempty list in which every element equals `c`. -/
theorem ratMean_all_eq (c : Rat) (xs : List Rat) (h : ∀ x ∈ xs, x = c)
    (hne : xs ≠ []) : ratMean xs = c := by
  have hpos : 0 < xs.length := List.length_pos.mpr hne
  have hlen : (xs.length : Rat) ≠ 0 := by
    exact_mod_cast Nat.pos_iff_ne_zero.mp hpos
  unfold ratMean
  rw [ratSum_all_eq c xs h, mul_div_assoc, div_self hlen, mul_one]

/-- A concrete deterministic instantiation of the pseudo-random source:
every `normal` draw yields 100 (well inside no band: 77.2 + 100 clips to
the upper bound 100). -/
def constSource : RandomSource :=
  { seedFn := fun n => n, drawFn := fun s => (100, s) }

/-- A concrete instantiation of the sine function: identically 0. -/
def zeroSin : Rat → Rat := fun _ => 0

/-- C8 counterexample: the claim says the reference line drawn is the mean
of the post-warmup portion of the generated series. In the code the line
is `ax.axhline(y=base_tps)` -- the constant 77.2, never computed from the
series. Instantiating the timeline with the concrete source whose draws
are all 100 makes every generated value clip to 100, so the post-warmup
mean is 100 while the drawn line stays at 77.2. -/
theorem c8_refline_not_postwarmup_mean :
    (fig5_throughput_timeline constSource zeroSin 0).1.meanLine
      ≠ ratMean
          ((fig5_throughput_timeline constSource zeroSin 0).1.postWarmup.map
            Prod.snd) := by
  have hval : ∀ i : Nat, (timelinePoint constSource zeroSin 42 i).2 = 100 := by
    intro i
    show clip (base_tps + 100 + 0 * 5) 50 100 = 100
    unfold clip base_tps
    norm_num [min_def, max_def]
  have hpost : (fig5_throughput_timeline constSource zeroSin 0).1.postWarmup
      = (timelinePoints constSource zeroSin 42).filter
          fun p => decide (6 < p.1) := rfl
  have hall : ∀ x ∈ (fig5_throughput_timeline constSource zeroSin 0).1.postWarmup.map
      Prod.snd, x = 100 := by
    intro x hx
    obtain ⟨p, hp, rfl⟩ := List.mem_map.mp hx
    rw [hpost] at hp
    have hp₁ : p ∈ timelinePoints constSource zeroSin 42 := (List.mem_filter.mp hp).1
    rw [timelinePoints] at hp₁
    obtain ⟨i, _, rfl⟩ := List.mem_map.mp hp₁
    exact hval i
  have hne : (fig5_throughput_timeline constSource zeroSin 0).1.postWarmup.map
      Prod.snd ≠ [] := by
    have h119 : timelinePoint constSource zeroSin 42 119
        ∈ (fig5_throughput_timeline constSource zeroSin 0).1.postWarmup := by
      rw [hpost]
      apply List.mem_filter.mpr
      refine ⟨?_, ?_⟩
      · rw [timelinePoints]
        exact List.mem_map_of_mem _ (List.mem_range.mpr (by norm_num))
      · have ht : (6 : Rat) < (timelinePoint constSource zeroSin 42 119).1 := by
          show (6 : Rat) < timeAt 119
          unfold timeAt
          norm_num
        exact decide_eq_true ht
    intro hmapnil
    rw [List.map_eq_nil_iff] at hmapnil
    exact List.ne_nil_of_mem h119 hmapnil
  have hmean := ratMean_all_eq 100 _ hall hne
  rw [hmean]
  show base_tps ≠ 100
  unfold base_tps
  norm_num

/-- C8 amended: the timeline figure does split the series at the warmup
boundary (6 seconds), the pre-warmup region is shaded in a distinct color
from the post-warmup region, and every pre-warmup point has time at most
the boundary while every post-warmup point lies strictly beyond it; but
the reference line is the constant `base_tps` (77.2), labeled "Mean", and
is not computed from the generated series (in particular it is not the
post-warmup mean). -/
theorem c8_warmup_split_and_constant_refline :
    ∀ (rs : RandomSource) (sinFn : Rat → Rat) (g : Nat),
      (fig5_throughput_timeline rs sinFn g).1.warmupBoundary = 6 ∧
      ((fig5_throughput_timeline rs sinFn g).1.preWarmup.all
        fun p => decide (p.1 ≤ 6)) = true ∧
      ((fig5_throughput_timeline rs sinFn g).1.postWarmup.all
        fun p => decide (6 < p.1)) = true ∧
      (fig5_throughput_timeline rs sinFn g).1.preColor
        ≠ (fig5_throughput_timeline rs sinFn g).1.postColor ∧
      (fig5_throughput_timeline rs sinFn g).1.meanLine = base_tps := by
  intro rs sinFn g
  refine ⟨rfl, ?_, ?_, ?_, rfl⟩
  · apply List.all_eq_true.mpr
    intro p hp
    exact (List.mem_filter.mp hp).2
  · apply List.all_eq_true.mpr
    intro p hp
    exact (List.mem_filter.mp hp).2
  · show ("#64748B" : String) ≠ "#3B82F6"
    decide
